import Mathlib

/-!
Verification of the Iris classification HTTP service (src/main.py).

The service wraps a pre-trained classifier behind three endpoints:
GET / (health check), POST /predict (inference), GET /metrics
(Prometheus exposition).  We embed the data model, the metrics state,
and the three handlers as pure Lean functions; request latency, which
in the source is measured with wall-clock time, enters the embedding
as an explicit nondeterministic parameter of the predict handler.
Floating-point inputs are modelled as rationals.
-/

namespace IrisApi

/-- Raw body of a POST /predict request: each of the four fields of the
pydantic model IrisInput may be absent from the JSON body, hence Option. -/
structure RawIrisInput where
  sepal_length : Option ℚ
  sepal_width : Option ℚ
  petal_length : Option ℚ
  petal_width : Option ℚ
deriving DecidableEq, Repr

/-- The validated pydantic model IrisInput (src/main.py lines 43-84):
four required floats, each declared with Field(..., gt=0). -/
structure IrisInput where
  sepal_length : ℚ
  sepal_width : ℚ
  petal_length : ℚ
  petal_width : ℚ
deriving DecidableEq, Repr

/-- Schema validation performed by FastAPI/pydantic before the predict
handler runs: every field must be present and strictly positive
(gt=0 on each Field).  Returns none exactly when the framework would
answer 422 Unprocessable Entity. -/
def validateIrisInput (raw : RawIrisInput) : Option IrisInput :=
  match raw.sepal_length, raw.sepal_width, raw.petal_length, raw.petal_width with
  | some sl, some sw, some pl, some pw =>
      if 0 < sl ∧ 0 < sw ∧ 0 < pl ∧ 0 < pw then
        some { sepal_length := sl, sepal_width := sw,
               petal_length := pl, petal_width := pw }
      else
        none
  | _, _, _, _ => none

/-- Process-wide Prometheus metrics of src/main.py lines 33-40:
the counter api_requests_total (REQUEST_COUNT) and the histogram
api_request_latency_seconds (REQUEST_LATENCY), the latter represented
by the list of observed latency samples, most recent first. -/
structure MetricsState where
  requestCount : ℕ
  latencyObservations : List ℚ
deriving DecidableEq, Repr

/-- Metrics state at process start: counter 0, no observations. -/
def MetricsState.initial : MetricsState :=
  { requestCount := 0, latencyObservations := [] }

/-- REQUEST_COUNT.inc() (src/main.py line 142). -/
def incRequestCount (s : MetricsState) : MetricsState :=
  { s with requestCount := s.requestCount + 1 }

/-- REQUEST_LATENCY.observe(d) (src/main.py line 159): records one sample. -/
def observeLatency (d : ℚ) (s : MetricsState) : MetricsState :=
  { s with latencyObservations := d :: s.latencyObservations }

/-- The type of the loaded model object as the handler uses it:
model.predict takes a list of feature rows and either returns a list of
predicted class labels or raises, the exception text being the String. -/
def ModelFn : Type :=
  List (List ℚ) → Except String (List Int)

/-- The feature matrix built inside the try block of the predict handler
(src/main.py lines 145-150): a single row of the four measurements. -/
def features (d : IrisInput) : List (List ℚ) :=
  [[d.sepal_length, d.sepal_width, d.petal_length, d.petal_width]]

/-- The body of the try block of the predict handler (src/main.py line 151):
pred = int(model.predict(features)[0]).  Any failure of the model call
propagates with its original message; indexing an empty prediction array
fails the way numpy reports an out-of-bounds index 0. -/
def inferenceRegion (model : ModelFn) (d : IrisInput) : Except String Int :=
  match model (features d) with
  | Except.error e => Except.error e
  | Except.ok preds =>
      match preds.head? with
      | none => Except.error "index 0 is out of bounds for axis 0 with size 0"
      | some p => Except.ok p

/-- Outcome of a POST /predict request as seen by the client:
200 with a prediction, 400 with a detail message (the HTTPException
raised in the except clause), or 422 from schema validation. -/
inductive PredictResponse where
  | ok (prediction : Int)
  | badRequest (detail : String)
  | unprocessableEntity
deriving DecidableEq, Repr

/-- HTTP status code of a predict response. -/
def PredictResponse.statusCode : PredictResponse → ℕ
  | PredictResponse.ok _ => 200
  | PredictResponse.badRequest _ => 400
  | PredictResponse.unprocessableEntity => 422

/-- The predict handler body (src/main.py lines 142-159), entered only with
a schema-valid input: increments REQUEST_COUNT, runs the try block, maps
success to 200 and any exception to 400 with str(e) as detail, and — in
the finally clause, hence on every exit path — observes the elapsed
latency exactly once.  The elapsed wall-clock time is the parameter. -/
def predict (model : ModelFn) (s : MetricsState) (elapsed : ℚ) (d : IrisInput) :
    PredictResponse × MetricsState :=
  let s1 := incRequestCount s
  let result :=
    match inferenceRegion model d with
    | Except.ok p => PredictResponse.ok p
    | Except.error e => PredictResponse.badRequest e
  (result, observeLatency elapsed s1)

/-- Full treatment of a POST /predict request: FastAPI validates the body
against IrisInput first; on validation failure it answers 422 without
running the handler (so no metric is touched), otherwise it runs predict. -/
def handlePredict (model : ModelFn) (s : MetricsState) (elapsed : ℚ)
    (raw : RawIrisInput) : PredictResponse × MetricsState :=
  match validateIrisInput raw with
  | none => (PredictResponse.unprocessableEntity, s)
  | some d => predict model s elapsed d

/-- The root handler (src/main.py lines 87-102): fixed message. -/
def root : String :=
  "FastAPI ML API is running"

/-- GET / as status code, message payload and resulting metrics state:
always 200 with the fixed message, metrics untouched. -/
def handleRoot (s : MetricsState) : (ℕ × String) × MetricsState :=
  ((200, root), s)

/-- CONTENT_TYPE_LATEST of prometheus_client, used as the media type of
the /metrics response (src/main.py line 186). -/
def CONTENT_TYPE_LATEST : String :=
  "text/plain; version=0.0.4; charset=utf-8"

/-- generate_latest(): the Prometheus text exposition of the current
metrics state — a deterministic rendering of counter value and
histogram sample count, always computed fresh from the state. -/
def generate_latest (s : MetricsState) : String :=
  "# HELP api_requests_total Total number of API requests\n" ++
  "# TYPE api_requests_total counter\n" ++
  "api_requests_total " ++ toString s.requestCount ++ ".0\n" ++
  "# HELP api_request_latency_seconds Request latency in seconds\n" ++
  "# TYPE api_request_latency_seconds histogram\n" ++
  "api_request_latency_seconds_count " ++
    toString s.latencyObservations.length ++ ".0\n"

/-- An HTTP response of GET /metrics. -/
structure MetricsResponse where
  statusCode : ℕ
  body : String
  mediaType : String
deriving DecidableEq, Repr

/-- The metrics handler (src/main.py lines 162-187): 200 with the fresh
exposition of the current state and CONTENT_TYPE_LATEST; no side effect. -/
def metrics (s : MetricsState) : MetricsResponse × MetricsState :=
  ({ statusCode := 200, body := generate_latest s,
     mediaType := CONTENT_TYPE_LATEST }, s)

/-- Whole-process state: the model object loaded once at startup
(src/main.py line 30) and the metrics registry. -/
structure AppState where
  model : ModelFn
  metrics : MetricsState

/-- One inbound request: GET /, GET /metrics, or POST /predict with a raw
body and the wall-clock latency the request will take. -/
inductive Op where
  | getRoot
  | getMetrics
  | postPredict (raw : RawIrisInput) (elapsed : ℚ)

/-- Effect of one request on the whole-process state. -/
def stepOp (st : AppState) (op : Op) : AppState :=
  match op with
  | Op.getRoot => { st with metrics := (handleRoot st.metrics).2 }
  | Op.getMetrics => { st with metrics := (IrisApi.metrics st.metrics).2 }
  | Op.postPredict raw elapsed =>
      { st with metrics := (handlePredict st.model st.metrics elapsed raw).2 }

/-- Effect of a sequence of requests on the whole-process state. -/
def runOps (st : AppState) (ops : List Op) : AppState :=
  ops.foldl stepOp st

/-- Modelled from the spec: the trained classifier artifact model.joblib is
loaded at startup (src/main.py line 30) but is not part of the source tree.
Per the spec it is an opaque deterministic classifier from a 4-element
feature row to a class index among 0, 1 and 2, mapping the Setosa-like
point (5.1, 3.5, 1.4, 0.2) to class 0.  We realise it with the classic
petal decision rule for the Iris data set. -/
def specClassifyRow (row : List ℚ) : Int :=
  match row with
  | [_sl, _sw, pl, pw] =>
      if pl < 5/2 then 0
      else if pw < 7/4 then 1
      else 2
  | _ => 0

/-- Modelled from the spec: model.predict applied to a feature matrix
classifies each row; the loaded artifact never fails on well-formed input. -/
def specModel : ModelFn :=
  fun rows => Except.ok (rows.map specClassifyRow)

/-- Request body with a missing field or with some present field that is
not strictly positive: the inputs claim C2 is about. -/
def hasMissingOrNonpositiveField (raw : RawIrisInput) : Prop :=
  raw.sepal_length = none ∨ raw.sepal_width = none ∨
  raw.petal_length = none ∨ raw.petal_width = none ∨
  (∃ v, raw.sepal_length = some v ∧ v ≤ 0) ∨
  (∃ v, raw.sepal_width = some v ∧ v ≤ 0) ∨
  (∃ v, raw.petal_length = some v ∧ v ≤ 0) ∨
  (∃ v, raw.petal_width = some v ∧ v ≤ 0)

/-- The predict handler determines the response from the try block outcome
and touches the metrics exactly as claimed, whatever that outcome is. -/
theorem predict_unfold (model : ModelFn) (s : MetricsState) (elapsed : ℚ)
    (d : IrisInput) :
    predict model s elapsed d =
      ((match inferenceRegion model d with
        | Except.ok p => PredictResponse.ok p
        | Except.error e => PredictResponse.badRequest e),
       observeLatency elapsed (incRequestCount s)) := rfl

/-- C1: a schema-valid POST /predict increments api_requests_total by
exactly 1 and records exactly one latency observation, on every exit path
of the handler, whether the model call succeeds or raises. -/
theorem predict_updates_metrics_exactly_once (model : ModelFn)
    (s : MetricsState) (elapsed : ℚ) (raw : RawIrisInput) (d : IrisInput)
    (h : validateIrisInput raw = some d) :
    (handlePredict model s elapsed raw).2.requestCount = s.requestCount + 1 ∧
    (handlePredict model s elapsed raw).2.latencyObservations.length =
      s.latencyObservations.length + 1 := by
  simp only [handlePredict, h, predict_unfold]
  exact ⟨rfl, rfl⟩

/-- Witness for C1: at a concrete schema-valid body and a model that
raises, the counter moves from 0 to 1 and one observation is recorded. -/
theorem predict_updates_metrics_exactly_once_witness :
    validateIrisInput ⟨some 1, some 2, some 3, some 4⟩ =
      some ⟨1, 2, 3, 4⟩ ∧
    ((handlePredict (fun _ => Except.error "boom") MetricsState.initial
        (1/100) ⟨some 1, some 2, some 3, some 4⟩).2.requestCount =
      MetricsState.initial.requestCount + 1 ∧
     (handlePredict (fun _ => Except.error "boom") MetricsState.initial
        (1/100) ⟨some 1, some 2, some 3, some 4⟩).2.latencyObservations.length =
      MetricsState.initial.latencyObservations.length + 1) :=
  ⟨by decide,
   predict_updates_metrics_exactly_once (fun _ => Except.error "boom")
     MetricsState.initial (1/100) ⟨some 1, some 2, some 3, some 4⟩
     ⟨1, 2, 3, 4⟩ (by decide)⟩

/-- C2: a body with a missing field or a non-positive field value is
rejected by schema validation: the service answers 422 and neither the
counter nor the histogram is touched. -/
theorem invalid_input_rejected_before_metrics (model : ModelFn)
    (s : MetricsState) (elapsed : ℚ) (raw : RawIrisInput)
    (h : hasMissingOrNonpositiveField raw) :
    handlePredict model s elapsed raw =
      (PredictResponse.unprocessableEntity, s) := by
  have hv : validateIrisInput raw = none := by
    obtain ⟨a, b, c, d⟩ := raw
    rcases a with _ | va <;> rcases b with _ | vb <;>
      rcases c with _ | vc <;> rcases d with _ | vd
    all_goals simp only [validateIrisInput]
    simp only [hasMissingOrNonpositiveField, Option.some.injEq,
      reduceCtorEq, false_or, exists_eq_left'] at h
    have hcond : ¬ (0 < va ∧ 0 < vb ∧ 0 < vc ∧ 0 < vd) := by
      rintro ⟨h1, h2, h3, h4⟩
      rcases h with h0 | h0 | h0 | h0 <;> linarith
    simp [hcond]
  unfold handlePredict
  rw [hv]

/-- Witness for C2: the concrete body with sepal_length = -1 of the spec
scenario yields 422 and leaves the metrics state untouched. -/
theorem invalid_input_rejected_before_metrics_witness :
    hasMissingOrNonpositiveField ⟨some (-1), some 3, some 1, some 1⟩ ∧
    handlePredict specModel MetricsState.initial (1/100)
        ⟨some (-1), some 3, some 1, some 1⟩ =
      (PredictResponse.unprocessableEntity, MetricsState.initial) :=
  ⟨Or.inr (Or.inr (Or.inr (Or.inr (Or.inl ⟨-1, rfl, by norm_num⟩)))),
   invalid_input_rejected_before_metrics specModel MetricsState.initial
     (1/100) ⟨some (-1), some 3, some 1, some 1⟩
     (Or.inr (Or.inr (Or.inr (Or.inr (Or.inl ⟨-1, rfl, by norm_num⟩)))))⟩

/-- C3: when the model call itself fails on a schema-valid request, the
service answers 400 and the detail field is exactly the original error
message; the failure is contained in the request. -/
theorem model_failure_maps_to_400 (model : ModelFn) (s : MetricsState)
    (elapsed : ℚ) (raw : RawIrisInput) (d : IrisInput) (e : String)
    (h : validateIrisInput raw = some d)
    (hm : model (features d) = Except.error e) :
    (handlePredict model s elapsed raw).1 = PredictResponse.badRequest e := by
  simp only [handlePredict, h, predict_unfold]
  simp only [inferenceRegion, hm]

/-- Witness for C3: a model raising with message boom yields exactly
400 with detail boom on a concrete valid body. -/
theorem model_failure_maps_to_400_witness :
    validateIrisInput ⟨some 1, some 2, some 3, some 4⟩ =
      some ⟨1, 2, 3, 4⟩ ∧
    (fun (_ : List (List ℚ)) => (Except.error "boom" : Except String (List Int)))
        (features ⟨1, 2, 3, 4⟩) = Except.error "boom" ∧
    (handlePredict (fun _ => Except.error "boom") MetricsState.initial
        (1/100) ⟨some 1, some 2, some 3, some 4⟩).1 =
      PredictResponse.badRequest "boom" :=
  ⟨by decide, rfl,
   model_failure_maps_to_400 (fun _ => Except.error "boom")
     MetricsState.initial (1/100) ⟨some 1, some 2, some 3, some 4⟩
     ⟨1, 2, 3, 4⟩ "boom" (by decide) rfl⟩

/-- C4: for any valid input (four strictly positive values), POST /predict
with the loaded classifier answers 200 with a prediction among 0, 1 and 2.
The classifier is modelled from the spec (specModel). -/
theorem valid_input_gives_200_with_class_prediction (s : MetricsState)
    (elapsed : ℚ) (sl sw pl pw : ℚ)
    (h1 : 0 < sl) (h2 : 0 < sw) (h3 : 0 < pl) (h4 : 0 < pw) :
    ∃ n : Int,
      (handlePredict specModel s elapsed
          ⟨some sl, some sw, some pl, some pw⟩).1 = PredictResponse.ok n ∧
      (PredictResponse.ok n).statusCode = 200 ∧
      (n = 0 ∨ n = 1 ∨ n = 2) := by
  have hv : validateIrisInput ⟨some sl, some sw, some pl, some pw⟩ =
      some ⟨sl, sw, pl, pw⟩ := by
    simp [validateIrisInput, h1, h2, h3, h4]
  refine ⟨specClassifyRow [sl, sw, pl, pw], ?_, rfl, ?_⟩
  · simp only [handlePredict, hv, predict_unfold]
    simp [inferenceRegion, specModel, features]
  · simp only [specClassifyRow]
    split_ifs <;> norm_num

/-- Witness for C4: a concrete valid input yields 200 with a class index. -/
theorem valid_input_gives_200_with_class_prediction_witness :
    (0 : ℚ) < 6 ∧ (0 : ℚ) < 3 ∧ (0 : ℚ) < 4 ∧ (0 : ℚ) < 2 ∧
    (∃ n : Int,
      (handlePredict specModel MetricsState.initial (1/100)
          ⟨some 6, some 3, some 4, some 2⟩).1 = PredictResponse.ok n ∧
      (PredictResponse.ok n).statusCode = 200 ∧
      (n = 0 ∨ n = 1 ∨ n = 2)) :=
  ⟨by norm_num, by norm_num, by norm_num, by norm_num,
   valid_input_gives_200_with_class_prediction MetricsState.initial (1/100)
     6 3 4 2 (by norm_num) (by norm_num) (by norm_num) (by norm_num)⟩

/-- C5: GET /metrics has no side effect — any number of repeated calls
leaves the whole app state, hence counter and histogram, unchanged — and
each response is 200 with media type text/plain; version=0.0.4;
charset=utf-8 and a body freshly rendered from the state at call time. -/
theorem metrics_idempotent_no_side_effects (st : AppState) (n : ℕ) :
    runOps st (List.replicate n Op.getMetrics) = st ∧
    (metrics st.metrics).2 = st.metrics ∧
    (metrics st.metrics).1.statusCode = 200 ∧
    (metrics st.metrics).1.mediaType = CONTENT_TYPE_LATEST ∧
    (metrics st.metrics).1.body = generate_latest st.metrics := by
  refine ⟨?_, rfl, rfl, rfl, rfl⟩
  induction n with
  | zero => rfl
  | succ k ih =>
      have hstep : stepOp st Op.getMetrics = st := by cases st; rfl
      rw [List.replicate_succ]
      show List.foldl stepOp (stepOp st Op.getMetrics)
        (List.replicate k Op.getMetrics) = st
      rw [hstep]
      exact ih

/-- C6: GET / answers 200 with the fixed message payload and leaves the
metrics state (counter and histogram) unchanged. -/
theorem root_fixed_response_no_side_effects (s : MetricsState) :
    handleRoot s = ((200, "FastAPI ML API is running"), s) := rfl

/-- C7: api_requests_total is monotonic — over any sequence of requests to
the three endpoints, with valid or invalid bodies, the counter never
decreases and is never reset. -/
theorem requestCount_monotone (st : AppState) (ops : List Op) :
    st.metrics.requestCount ≤ (runOps st ops).metrics.requestCount := by
  induction ops generalizing st with
  | nil => exact le_refl _
  | cons op rest ih =>
      refine le_trans ?_ (ih (stepOp st op))
      cases op with
      | getRoot => exact le_refl _
      | getMetrics => exact le_refl _
      | postPredict raw elapsed =>
          simp only [stepOp]
          rcases hv : validateIrisInput raw with _ | d
          · simp [handlePredict, hv]
          · simp only [handlePredict, hv, predict_unfold, observeLatency,
              incRequestCount]
            exact Nat.le_succ _

/-- C8: on the concrete Setosa-like input (5.1, 3.5, 1.4, 0.2) the service
answers 200 with prediction 0.  The classifier is modelled from the spec
(specModel), the artifact itself being outside the source tree. -/
theorem concrete_setosa_input_predicts_class_zero :
    (handlePredict specModel MetricsState.initial (1/100)
        ⟨some (51/10), some (35/10), some (14/10), some (2/10)⟩).1 =
      PredictResponse.ok 0 ∧
    (PredictResponse.ok 0).statusCode = 200 := by
  refine ⟨?_, rfl⟩
  have hv : validateIrisInput
      ⟨some (51/10), some (35/10), some (14/10), some (2/10)⟩ =
      some ⟨51/10, 35/10, 14/10, 2/10⟩ := by
    simp only [validateIrisInput]
    norm_num
  simp only [handlePredict, hv, predict_unfold]
  simp only [inferenceRegion, specModel, features, List.map, specClassifyRow]
  norm_num

/-- C9: the model object is loaded once at startup and no handler mutates,
reloads or replaces it: over any sequence of requests the model component
of the app state is unchanged. -/
theorem model_immutable_across_all_operations (st : AppState)
    (ops : List Op) : (runOps st ops).model = st.model := by
  induction ops generalizing st with
  | nil => rfl
  | cons op rest ih =>
      have h1 : (stepOp st op).model = st.model := by cases op <;> rfl
      exact (ih (stepOp st op)).trans h1

/-- C10: for a schema-valid request, whatever happens inside the try block
of the handler — the model call failing, or indexing an empty prediction
array — the response is either 200 with the prediction or 400 whose detail
is exactly the message of the raised exception; no exception propagates
beyond the handler. -/
theorem inference_errors_contained (model : ModelFn) (s : MetricsState)
    (elapsed : ℚ) (raw : RawIrisInput) (d : IrisInput)
    (h : validateIrisInput raw = some d) :
    (∃ e, inferenceRegion model d = Except.error e ∧
        (handlePredict model s elapsed raw).1 = PredictResponse.badRequest e) ∨
    (∃ p, inferenceRegion model d = Except.ok p ∧
        (handlePredict model s elapsed raw).1 = PredictResponse.ok p) := by
  simp only [handlePredict, h, predict_unfold]
  cases hr : inferenceRegion model d with
  | error e => exact Or.inl ⟨e, rfl, by simp [hr]⟩
  | ok p => exact Or.inr ⟨p, rfl, by simp [hr]⟩

/-- Witness for C10: with a model returning an empty prediction array on a
concrete valid body, the indexing failure is caught and mapped to 400. -/
theorem inference_errors_contained_witness :
    validateIrisInput ⟨some 1, some 2, some 3, some 4⟩ =
      some ⟨1, 2, 3, 4⟩ ∧
    ((∃ e, inferenceRegion (fun _ => Except.ok []) ⟨1, 2, 3, 4⟩ =
          Except.error e ∧
        (handlePredict (fun _ => Except.ok []) MetricsState.initial (1/100)
            ⟨some 1, some 2, some 3, some 4⟩).1 =
          PredictResponse.badRequest e) ∨
     (∃ p, inferenceRegion (fun _ => Except.ok []) ⟨1, 2, 3, 4⟩ =
          Except.ok p ∧
        (handlePredict (fun _ => Except.ok []) MetricsState.initial (1/100)
            ⟨some 1, some 2, some 3, some 4⟩).1 =
          PredictResponse.ok p)) :=
  ⟨by decide,
   inference_errors_contained (fun _ => Except.ok []) MetricsState.initial
     (1/100) ⟨some 1, some 2, some 3, some 4⟩ ⟨1, 2, 3, 4⟩ (by decide)⟩

end IrisApi
